import Mathlib

/-!
Shallow embedding of the buttplug server core (message types, validators,
endpoint codec, device identity, and the server device manager's message
routing), with theorems checking the specification's claims against it.

Machine integers (`u32`) are embedded as `Nat` (no arithmetic is performed on
them anywhere in the embedded code, only construction, projection and equality,
so no overflow modelling is needed); `f64` scalar values are embedded as `Rat`
(the embedded code only compares them against 0.0 and 1.0 and copies them, and
the claims never exercise NaN or rounding).
-/

namespace Buttplug

/-- Modelled from the spec: the MessageError kind ("malformed, unsupported,
out-of-spec"; "Client-originated messages fail with `InvalidMessageContents` if
`id == 0`"). The errors module itself is not under src/; these are the variants
the files under src/ construct (`UnexpectedMessageType` in
server_device_manager.rs, `InvalidMessageContents` via the validators,
`ButtplugMessageError::new` on serialization failure in messages/mod.rs). -/
inductive ButtplugMessageError where
  | UnexpectedMessageType (description : String)
  | InvalidMessageContents (description : String)
  | MessageSerializationError (description : String)
  deriving DecidableEq

/-- Modelled from the spec: the DeviceError kind ("DeviceNotAvailable,
FeatureIndexOutOfRange, ProtocolSpecific") plus `DeviceNotSupportedMessageType`
(spec section 4.6); the errors module is not under src/.
`DeviceNotAvailable` carries the device index, as constructed in
server_device_manager.rs. -/
inductive ButtplugDeviceError where
  | DeviceNotAvailable (device_index : Nat)
  | FeatureIndexOutOfRange (description : String)
  | ProtocolSpecificError (description : String)
  | DeviceNotSupportedMessageType (description : String)
  deriving DecidableEq

/-- Modelled from the spec: "Four error kinds: MessageError, HandshakeError,
DeviceError, UnknownError"; the errors module is not under src/. -/
inductive ButtplugError where
  | Message (error : ButtplugMessageError)
  | Device (error : ButtplugDeviceError)
  | Handshake (description : String)
  | Unknown (description : String)
  deriving DecidableEq

/-- The `Endpoint` enum of device/mod.rs (45 variants). -/
inductive Endpoint where
  | Command
  | Firmware
  | Rx
  | RxAccel
  | RxBLEBattery
  | RxBLEModel
  | RxPressure
  | RxTouch
  | Tx
  | TxMode
  | TxShock
  | TxVibrate
  | TxVendorControl
  | Whitelist
  | Generic0
  | Generic1
  | Generic2
  | Generic3
  | Generic4
  | Generic5
  | Generic6
  | Generic7
  | Generic8
  | Generic9
  | Generic10
  | Generic11
  | Generic12
  | Generic13
  | Generic14
  | Generic15
  | Generic16
  | Generic17
  | Generic18
  | Generic19
  | Generic20
  | Generic21
  | Generic22
  | Generic23
  | Generic24
  | Generic25
  | Generic26
  | Generic27
  | Generic28
  | Generic29
  | Generic30
  | Generic31
  deriving DecidableEq

/-- The strum `Display` implementation derived with
`#[strum(serialize_all = "lowercase")]` on `Endpoint` in device/mod.rs: each
variant prints as the lowercase form of its name. The serde `Serialize`
implementation (device/mod.rs) emits exactly this string
(`serializer.serialize_str(&self.to_string())`). -/
def Endpoint.toStr : Endpoint → String
  | .Command => "command"
  | .Firmware => "firmware"
  | .Rx => "rx"
  | .RxAccel => "rxaccel"
  | .RxBLEBattery => "rxblebattery"
  | .RxBLEModel => "rxblemodel"
  | .RxPressure => "rxpressure"
  | .RxTouch => "rxtouch"
  | .Tx => "tx"
  | .TxMode => "txmode"
  | .TxShock => "txshock"
  | .TxVibrate => "txvibrate"
  | .TxVendorControl => "txvendorcontrol"
  | .Whitelist => "whitelist"
  | .Generic0 => "generic0"
  | .Generic1 => "generic1"
  | .Generic2 => "generic2"
  | .Generic3 => "generic3"
  | .Generic4 => "generic4"
  | .Generic5 => "generic5"
  | .Generic6 => "generic6"
  | .Generic7 => "generic7"
  | .Generic8 => "generic8"
  | .Generic9 => "generic9"
  | .Generic10 => "generic10"
  | .Generic11 => "generic11"
  | .Generic12 => "generic12"
  | .Generic13 => "generic13"
  | .Generic14 => "generic14"
  | .Generic15 => "generic15"
  | .Generic16 => "generic16"
  | .Generic17 => "generic17"
  | .Generic18 => "generic18"
  | .Generic19 => "generic19"
  | .Generic20 => "generic20"
  | .Generic21 => "generic21"
  | .Generic22 => "generic22"
  | .Generic23 => "generic23"
  | .Generic24 => "generic24"
  | .Generic25 => "generic25"
  | .Generic26 => "generic26"
  | .Generic27 => "generic27"
  | .Generic28 => "generic28"
  | .Generic29 => "generic29"
  | .Generic30 => "generic30"
  | .Generic31 => "generic31"

/-- All 45 `Endpoint` variants, in declaration order. -/
def endpointVariants : List Endpoint :=
  [.Command, .Firmware, .Rx, .RxAccel, .RxBLEBattery, .RxBLEModel, .RxPressure,
   .RxTouch, .Tx, .TxMode, .TxShock, .TxVibrate, .TxVendorControl, .Whitelist,
   .Generic0, .Generic1, .Generic2, .Generic3, .Generic4, .Generic5, .Generic6,
   .Generic7, .Generic8, .Generic9, .Generic10, .Generic11, .Generic12,
   .Generic13, .Generic14, .Generic15, .Generic16, .Generic17, .Generic18,
   .Generic19, .Generic20, .Generic21, .Generic22, .Generic23, .Generic24,
   .Generic25, .Generic26, .Generic27, .Generic28, .Generic29, .Generic30,
   .Generic31]

/-- The strum `EnumString` (`FromStr`) implementation derived on `Endpoint` in
device/mod.rs: a string parses to the variant whose serialized (lowercase) form
it equals, and to an error otherwise. The serde `Deserialize` implementation
(device/mod.rs, `EndpointVisitor::visit_str`) calls exactly this. -/
def Endpoint.fromStr (s : String) : Option Endpoint :=
  endpointVariants.find? (fun e => decide (Endpoint.toStr e = s))

/-- Modelled from the spec: the `Ok` acknowledgment message ("Pong-implicit-
via-Ok"; ok.rs is not under src/): an id only. -/
structure Ok where
  id : Nat
  deriving DecidableEq

/-- Modelled from the spec: `Ok::default()` as server_device_manager.rs calls
it. Its id is the library's fixed placeholder client-message id 1 (the same
default the constructors in src/ use: `ScalarCmd::new`, `RawReadCmd::new` and
`SensorReading::new` all set `id: 1`); it is not derived from any triggering
message. -/
def Ok.default : Ok := { id := 1 }

/-- Modelled from the spec (ping.rs is not under src/). -/
structure Ping where
  id : Nat
  deriving DecidableEq

/-- Modelled from the spec (error.rs is not under src/): wire `Error` messages
carry "(`Id`, `ErrorMessage`, `ErrorCode`)". -/
structure ErrorMsg where
  id : Nat
  error_message : String
  error_code : Nat
  deriving DecidableEq

/-- Modelled from the spec (test.rs is not under src/). -/
structure Test where
  id : Nat
  test_string : String
  deriving DecidableEq

/-- Modelled from the spec (request_log.rs is not under src/). -/
structure RequestLog where
  id : Nat
  log_level : String
  deriving DecidableEq

/-- Modelled from the spec (log.rs is not under src/). -/
structure Log where
  id : Nat
  log_level : String
  log_message : String
  deriving DecidableEq

/-- Modelled from the spec: `RequestServerInfo{ClientName, MessageVersion}`
(request_server_info.rs is not under src/). -/
structure RequestServerInfo where
  id : Nat
  client_name : String
  message_version : Nat
  deriving DecidableEq

/-- Modelled from the spec: `ServerInfo{ServerName, MessageVersion,
MaxPingTime}` (server_info.rs is not under src/). -/
structure ServerInfo where
  id : Nat
  server_name : String
  message_version : Nat
  max_ping_time : Nat
  deriving DecidableEq

/-- Modelled from the spec (request_device_list.rs is not under src/). -/
structure RequestDeviceList where
  id : Nat
  deriving DecidableEq

/-- Modelled from the spec (start_scanning.rs is not under src/). -/
structure StartScanning where
  id : Nat
  deriving DecidableEq

/-- Modelled from the spec (stop_scanning.rs is not under src/). -/
structure StopScanning where
  id : Nat
  deriving DecidableEq

/-- Modelled from the spec (scanning_finished.rs is not under src/). -/
structure ScanningFinished where
  id : Nat
  deriving DecidableEq

/-- Modelled from the spec (stop_all_devices.rs is not under src/). -/
structure StopAllDevices where
  id : Nat
  deriving DecidableEq

/-- Modelled from the spec (stop_device_cmd.rs is not under src/). -/
structure StopDeviceCmd where
  id : Nat
  device_index : Nat
  deriving DecidableEq

/-- Modelled from the spec: `StopDeviceCmd::new(device_index)` with the
library's default id 1, as called by `stop_all_devices` in
server_device_manager.rs (`messages::StopDeviceCmd::new(1)`). -/
def StopDeviceCmd.new (device_index : Nat) : StopDeviceCmd :=
  { id := 1, device_index }

/-- Modelled from the spec: the device-attribute summary a `DeviceList` entry
carries ("`DeviceName`, `DeviceIndex`, `DeviceMessages`";
device_message_info.rs is not under src/). The attribute map is embedded as
the list of supported message names. -/
structure DeviceMessageInfo where
  device_index : Nat
  device_name : String
  device_messages : List String
  deriving DecidableEq

/-- Modelled from the spec: `DeviceMessageInfo::new(index, name, attributes)`
as called by `parse_device_manager_message` in server_device_manager.rs. -/
def DeviceMessageInfo.new (device_index : Nat) (device_name : String)
    (device_messages : List String) : DeviceMessageInfo :=
  { device_index, device_name, device_messages }

/-- Modelled from the spec (device_list.rs is not under src/). -/
structure DeviceList where
  id : Nat
  devices : List DeviceMessageInfo
  deriving DecidableEq

/-- Modelled from the spec: `DeviceList::new(devices)` with the library's
default id 1, as called in server_device_manager.rs. -/
def DeviceList.new (devices : List DeviceMessageInfo) : DeviceList :=
  { id := 1, devices }

/-- `ButtplugMessage::set_id` for `DeviceList`, as called in
server_device_manager.rs (`device_list.set_id(msg.id())`). -/
def DeviceList.set_id (m : DeviceList) (id : Nat) : DeviceList :=
  { m with id }

/-- Modelled from the spec (device_added.rs is not under src/). -/
structure DeviceAdded where
  id : Nat
  device_index : Nat
  device_name : String
  device_messages : List String
  deriving DecidableEq

/-- Modelled from the spec (device_removed.rs is not under src/). -/
structure DeviceRemoved where
  id : Nat
  device_index : Nat
  deriving DecidableEq

/-- Modelled from the spec (single_motor_vibrate_cmd.rs is not under src/):
a deprecated whole-device speed command, speed in [0.0, 1.0]. -/
structure SingleMotorVibrateCmd where
  id : Nat
  device_index : Nat
  speed : Rat
  deriving DecidableEq

/-- Modelled from the spec (fleshlight_launch_fw12_cmd.rs is not under src/):
`FleshlightLaunchFW12Cmd(position, speed)`. -/
structure FleshlightLaunchFW12Cmd where
  id : Nat
  device_index : Nat
  position : Nat
  speed : Nat
  deriving DecidableEq

/-- Modelled from the spec (kiiroo_cmd.rs is not under src/). -/
structure KiirooCmd where
  id : Nat
  device_index : Nat
  command : String
  deriving DecidableEq

/-- Modelled from the spec (lovense_cmd.rs is not under src/): the deprecated
V1 Lovense vendor command, never implemented device-side. -/
structure LovenseCmd where
  id : Nat
  device_index : Nat
  command : String
  deriving DecidableEq

/-- Modelled from the spec (vorze_a10_cyclone_cmd.rs is not under src/). -/
structure VorzeA10CycloneCmd where
  id : Nat
  device_index : Nat
  speed : Nat
  clockwise : Bool
  deriving DecidableEq

/-- Modelled from the spec: a `VibrateCmd` subcommand `{Index, Speed}`
(vibrate_cmd.rs is not under src/). -/
structure VibrateSubcommand where
  index : Nat
  speed : Rat
  deriving DecidableEq

/-- Modelled from the spec (vibrate_cmd.rs is not under src/): id,
device index, and the `Speeds` subcommand list. -/
structure VibrateCmd where
  id : Nat
  device_index : Nat
  speeds : List VibrateSubcommand
  deriving DecidableEq

/-- Modelled from the spec: a `LinearCmd` subcommand `{Index, Duration,
Position}` (linear_cmd.rs is not under src/). -/
structure VectorSubcommand where
  index : Nat
  duration : Nat
  position : Rat
  deriving DecidableEq

/-- Modelled from the spec (linear_cmd.rs is not under src/). -/
structure LinearCmd where
  id : Nat
  device_index : Nat
  vectors : List VectorSubcommand
  deriving DecidableEq

/-- Modelled from the spec: a `RotateCmd` subcommand `{Index, Speed,
Clockwise}` (rotate_cmd.rs is not under src/). -/
structure RotationSubcommand where
  index : Nat
  speed : Rat
  clockwise : Bool
  deriving DecidableEq

/-- Modelled from the spec (rotate_cmd.rs is not under src/). -/
structure RotateCmd where
  id : Nat
  device_index : Nat
  rotations : List RotationSubcommand
  deriving DecidableEq

/-- Modelled from the spec (raw_write_cmd.rs is not under src/): endpoint,
data bytes, write-with-response flag. -/
structure RawWriteCmd where
  id : Nat
  device_index : Nat
  endpoint : Endpoint
  data : List Nat
  write_with_response : Bool
  deriving DecidableEq

/-- The `RawReadCmd` struct of raw_read_cmd.rs: id, device index, endpoint,
expected length, timeout. -/
structure RawReadCmd where
  id : Nat
  device_index : Nat
  endpoint : Endpoint
  expected_length : Nat
  timeout : Nat
  deriving DecidableEq

/-- `RawReadCmd::new` of raw_read_cmd.rs: default id 1. -/
def RawReadCmd.new (device_index : Nat) (endpoint : Endpoint)
    (expected_length : Nat) (timeout : Nat) : RawReadCmd :=
  { id := 1, device_index, endpoint, expected_length, timeout }

/-- Modelled from the spec (raw_reading.rs is not under src/). -/
structure RawReading where
  id : Nat
  device_index : Nat
  endpoint : Endpoint
  data : List Nat
  deriving DecidableEq

/-- Modelled from the spec (the raw subscribe message file is not under src/);
`RawSubscribeCmd::new(device_index, endpoint)` is called with `(1, Tx)` by
`ButtplugDevice::name` in device/mod.rs. -/
structure RawSubscribeCmd where
  id : Nat
  device_index : Nat
  endpoint : Endpoint
  deriving DecidableEq

/-- Modelled from the spec: `RawSubscribeCmd::new` with the library's default
id 1, per the constructor convention in src/. -/
def RawSubscribeCmd.new (device_index : Nat) (endpoint : Endpoint) :
    RawSubscribeCmd :=
  { id := 1, device_index, endpoint }

/-- Modelled from the spec (the raw unsubscribe message file is not under
src/). -/
structure RawUnsubscribeCmd where
  id : Nat
  device_index : Nat
  endpoint : Endpoint
  deriving DecidableEq

/-- Modelled from the spec (subscribe_cmd.rs is not under src/). -/
structure SubscribeCmd where
  id : Nat
  device_index : Nat
  message_type : String
  deriving DecidableEq

/-- Modelled from the spec (unsubscribe_cmd.rs is not under src/). -/
structure UnsubscribeCmd where
  id : Nat
  device_index : Nat
  message_type : String
  deriving DecidableEq

/-- Modelled from the spec: actuator types ("a physical output feature
(vibrator, linear motor, rotator, inflator)"); the actuator type enum file is
not under src/. `Vibrate` is the variant scalar_cmd.rs constructs. -/
inductive ActuatorType where
  | Vibrate
  | Rotate
  | Oscillate
  | Constrict
  | Inflate
  | Position
  deriving DecidableEq

/-- The `ScalarSubcommand` struct of scalar_cmd.rs. -/
structure ScalarSubcommand where
  index : Nat
  scalar : Rat
  actuator_type : ActuatorType
  deriving DecidableEq

/-- `ScalarSubcommand::new` of scalar_cmd.rs. -/
def ScalarSubcommand.new (index : Nat) (scalar : Rat)
    (actuator_type : ActuatorType) : ScalarSubcommand :=
  { index, scalar, actuator_type }

/-- The `ScalarCmd` struct of scalar_cmd.rs. -/
structure ScalarCmd where
  id : Nat
  device_index : Nat
  scalars : List ScalarSubcommand
  deriving DecidableEq

/-- The `ButtplugMessageUnion` enum of core/messages/mod.rs (lines 193-238):
the full message union, thirty variants. -/
inductive ButtplugMessageUnion where
  | ok (m : Ok)
  | error (m : ErrorMsg)
  | ping (m : Ping)
  | test (m : Test)
  | requestLog (m : RequestLog)
  | log (m : Log)
  | requestServerInfo (m : RequestServerInfo)
  | serverInfo (m : ServerInfo)
  | deviceList (m : DeviceList)
  | deviceAdded (m : DeviceAdded)
  | deviceRemoved (m : DeviceRemoved)
  | startScanning (m : StartScanning)
  | stopScanning (m : StopScanning)
  | scanningFinished (m : ScanningFinished)
  | requestDeviceList (m : RequestDeviceList)
  | stopAllDevices (m : StopAllDevices)
  | vibrateCmd (m : VibrateCmd)
  | linearCmd (m : LinearCmd)
  | rotateCmd (m : RotateCmd)
  | rawWriteCmd (m : RawWriteCmd)
  | rawReadCmd (m : RawReadCmd)
  | stopDeviceCmd (m : StopDeviceCmd)
  | rawReading (m : RawReading)
  | subscribeCmd (m : SubscribeCmd)
  | unsubscribeCmd (m : UnsubscribeCmd)
  | singleMotorVibrateCmd (m : SingleMotorVibrateCmd)
  | fleshlightLaunchFW12Cmd (m : FleshlightLaunchFW12Cmd)
  | lovenseCmd (m : LovenseCmd)
  | kiirooCmd (m : KiirooCmd)
  | vorzeA10CycloneCmd (m : VorzeA10CycloneCmd)
  deriving DecidableEq

/-- The `ButtplugMessageUnionVersion1` enum of core/messages/mod.rs (lines
291-317): the version-1 wire union; it retains the deprecated device-specific
commands, `LovenseCmd` among them. -/
inductive ButtplugMessageUnionVersion1 where
  | ok (m : Ok)
  | error (m : ErrorMsg)
  | ping (m : Ping)
  | test (m : Test)
  | requestLog (m : RequestLog)
  | log (m : Log)
  | requestServerInfo (m : RequestServerInfo)
  | serverInfo (m : ServerInfo)
  | deviceList (m : DeviceList)
  | deviceAdded (m : DeviceAdded)
  | deviceRemoved (m : DeviceRemoved)
  | startScanning (m : StartScanning)
  | stopScanning (m : StopScanning)
  | scanningFinished (m : ScanningFinished)
  | requestDeviceList (m : RequestDeviceList)
  | stopAllDevices (m : StopAllDevices)
  | vibrateCmd (m : VibrateCmd)
  | linearCmd (m : LinearCmd)
  | rotateCmd (m : RotateCmd)
  | fleshlightLaunchFW12Cmd (m : FleshlightLaunchFW12Cmd)
  | lovenseCmd (m : LovenseCmd)
  | kiirooCmd (m : KiirooCmd)
  | vorzeA10CycloneCmd (m : VorzeA10CycloneCmd)
  | singleMotorVibrateCmd (m : SingleMotorVibrateCmd)
  | stopDeviceCmd (m : StopDeviceCmd)
  deriving DecidableEq

/-- The `ButtplugDeviceManagerMessageUnion` enum of core/messages/mod.rs
(lines 371-376): messages handled by the device manager itself. -/
inductive ButtplugDeviceManagerMessageUnion where
  | requestDeviceList (m : RequestDeviceList)
  | stopAllDevices (m : StopAllDevices)
  | startScanning (m : StartScanning)
  | stopScanning (m : StopScanning)
  deriving DecidableEq

/-- The `ButtplugDeviceCommandMessageUnion` enum of core/messages/mod.rs
(lines 387-401): messages routed to device instances. Its comment reads
"No LovenseCmd, it was never implemented anywhere". The
`rawSubscribeCmd`/`rawUnsubscribeCmd` variants are the ones device/mod.rs
constructs (`ButtplugDevice::name` builds
`ButtplugDeviceCommandMessageUnion::RawSubscribeCmd(...)`), targeting the
union revision that includes them. -/
inductive ButtplugDeviceCommandMessageUnion where
  | fleshlightLaunchFW12Cmd (m : FleshlightLaunchFW12Cmd)
  | singleMotorVibrateCmd (m : SingleMotorVibrateCmd)
  | vorzeA10CycloneCmd (m : VorzeA10CycloneCmd)
  | kiirooCmd (m : KiirooCmd)
  | vibrateCmd (m : VibrateCmd)
  | linearCmd (m : LinearCmd)
  | rotateCmd (m : RotateCmd)
  | rawWriteCmd (m : RawWriteCmd)
  | rawReadCmd (m : RawReadCmd)
  | rawSubscribeCmd (m : RawSubscribeCmd)
  | rawUnsubscribeCmd (m : RawUnsubscribeCmd)
  | stopDeviceCmd (m : StopDeviceCmd)
  | subscribeCmd (m : SubscribeCmd)
  | unsubscribeCmd (m : UnsubscribeCmd)
  deriving DecidableEq

/-- `ButtplugDeviceMessage::device_index()` over the device-command union
(the derive in core/messages/mod.rs: every variant carries its struct's
`device_index` field). -/
def ButtplugDeviceCommandMessageUnion.device_index :
    ButtplugDeviceCommandMessageUnion → Nat
  | .fleshlightLaunchFW12Cmd m => m.device_index
  | .singleMotorVibrateCmd m => m.device_index
  | .vorzeA10CycloneCmd m => m.device_index
  | .kiirooCmd m => m.device_index
  | .vibrateCmd m => m.device_index
  | .linearCmd m => m.device_index
  | .rotateCmd m => m.device_index
  | .rawWriteCmd m => m.device_index
  | .rawReadCmd m => m.device_index
  | .rawSubscribeCmd m => m.device_index
  | .rawUnsubscribeCmd m => m.device_index
  | .stopDeviceCmd m => m.device_index
  | .subscribeCmd m => m.device_index
  | .unsubscribeCmd m => m.device_index

/-- Modelled from the spec: `ButtplugClientMessage`, the union of
client-originated messages `ServerDeviceManager::parse_message` receives (its
defining module is not under src/). The variants are the client-originated
messages of the spec's closed message set that the device-command and
device-manager unions of core/messages/mod.rs select from, plus the handshake
and ping messages. -/
inductive ButtplugClientMessage where
  | ping (m : Ping)
  | requestServerInfo (m : RequestServerInfo)
  | requestDeviceList (m : RequestDeviceList)
  | startScanning (m : StartScanning)
  | stopScanning (m : StopScanning)
  | stopAllDevices (m : StopAllDevices)
  | fleshlightLaunchFW12Cmd (m : FleshlightLaunchFW12Cmd)
  | singleMotorVibrateCmd (m : SingleMotorVibrateCmd)
  | vorzeA10CycloneCmd (m : VorzeA10CycloneCmd)
  | kiirooCmd (m : KiirooCmd)
  | lovenseCmd (m : LovenseCmd)
  | vibrateCmd (m : VibrateCmd)
  | linearCmd (m : LinearCmd)
  | rotateCmd (m : RotateCmd)
  | rawWriteCmd (m : RawWriteCmd)
  | rawReadCmd (m : RawReadCmd)
  | rawSubscribeCmd (m : RawSubscribeCmd)
  | rawUnsubscribeCmd (m : RawUnsubscribeCmd)
  | stopDeviceCmd (m : StopDeviceCmd)
  | subscribeCmd (m : SubscribeCmd)
  | unsubscribeCmd (m : UnsubscribeCmd)
  deriving DecidableEq

/-- The `TryFromButtplugMessageUnion` derive on
`ButtplugDeviceCommandMessageUnion` (core/messages/mod.rs): conversion from a
client message succeeds exactly when the client message's variant is a variant
of the device-command union, and carries the struct across unchanged. -/
def ButtplugDeviceCommandMessageUnion.tryFrom :
    ButtplugClientMessage → Option ButtplugDeviceCommandMessageUnion
  | .fleshlightLaunchFW12Cmd m => some (.fleshlightLaunchFW12Cmd m)
  | .singleMotorVibrateCmd m => some (.singleMotorVibrateCmd m)
  | .vorzeA10CycloneCmd m => some (.vorzeA10CycloneCmd m)
  | .kiirooCmd m => some (.kiirooCmd m)
  | .vibrateCmd m => some (.vibrateCmd m)
  | .linearCmd m => some (.linearCmd m)
  | .rotateCmd m => some (.rotateCmd m)
  | .rawWriteCmd m => some (.rawWriteCmd m)
  | .rawReadCmd m => some (.rawReadCmd m)
  | .rawSubscribeCmd m => some (.rawSubscribeCmd m)
  | .rawUnsubscribeCmd m => some (.rawUnsubscribeCmd m)
  | .stopDeviceCmd m => some (.stopDeviceCmd m)
  | .subscribeCmd m => some (.subscribeCmd m)
  | .unsubscribeCmd m => some (.unsubscribeCmd m)
  | _ => none

/-- The `TryFromButtplugMessageUnion` derive on
`ButtplugDeviceManagerMessageUnion` (core/messages/mod.rs). -/
def ButtplugDeviceManagerMessageUnion.tryFrom :
    ButtplugClientMessage → Option ButtplugDeviceManagerMessageUnion
  | .requestDeviceList m => some (.requestDeviceList m)
  | .stopAllDevices m => some (.stopAllDevices m)
  | .startScanning m => some (.startScanning m)
  | .stopScanning m => some (.stopScanning m)
  | _ => none

/-- The Rust `Debug` rendering of a client message
(`format!("{:?}", msg)` in server_device_manager.rs), abstracted to the
variant name: the claims only use that it is some description string. -/
def ButtplugClientMessage.debugName : ButtplugClientMessage → String
  | .ping _ => "Ping"
  | .requestServerInfo _ => "RequestServerInfo"
  | .requestDeviceList _ => "RequestDeviceList"
  | .startScanning _ => "StartScanning"
  | .stopScanning _ => "StopScanning"
  | .stopAllDevices _ => "StopAllDevices"
  | .fleshlightLaunchFW12Cmd _ => "FleshlightLaunchFW12Cmd"
  | .singleMotorVibrateCmd _ => "SingleMotorVibrateCmd"
  | .vorzeA10CycloneCmd _ => "VorzeA10CycloneCmd"
  | .kiirooCmd _ => "KiirooCmd"
  | .lovenseCmd _ => "LovenseCmd"
  | .vibrateCmd _ => "VibrateCmd"
  | .linearCmd _ => "LinearCmd"
  | .rotateCmd _ => "RotateCmd"
  | .rawWriteCmd _ => "RawWriteCmd"
  | .rawReadCmd _ => "RawReadCmd"
  | .rawSubscribeCmd _ => "RawSubscribeCmd"
  | .rawUnsubscribeCmd _ => "RawUnsubscribeCmd"
  | .stopDeviceCmd _ => "StopDeviceCmd"
  | .subscribeCmd _ => "SubscribeCmd"
  | .unsubscribeCmd _ => "UnsubscribeCmd"

/-- Modelled from the spec: the server messages the routing layer produces
("a stream of protocol messages"; the `ButtplugServerMessage` union is not
under src/). -/
inductive ButtplugServerMessage where
  | ok (m : Ok)
  | error (m : ErrorMsg)
  | log (m : Log)
  | serverInfo (m : ServerInfo)
  | deviceList (m : DeviceList)
  | deviceAdded (m : DeviceAdded)
  | deviceRemoved (m : DeviceRemoved)
  | scanningFinished (m : ScanningFinished)
  | rawReading (m : RawReading)
  deriving DecidableEq

/-- The id carried by a successful server response, if any (`None` for an
error outcome). -/
def responseIdOf : Except ButtplugError ButtplugServerMessage → Option Nat
  | .ok (.ok m) => some m.id
  | .ok (.error m) => some m.id
  | .ok (.log m) => some m.id
  | .ok (.serverInfo m) => some m.id
  | .ok (.deviceList m) => some m.id
  | .ok (.deviceAdded m) => some m.id
  | .ok (.deviceRemoved m) => some m.id
  | .ok (.scanningFinished m) => some m.id
  | .ok (.rawReading m) => some m.id
  | .error _ => none

/-- The text of the reserved-id validation error. Modelled from the spec:
"Client-originated messages fail with `InvalidMessageContents` if
`id == 0`" (the `ButtplugMessageValidator` trait is not under src/). -/
def systemIdErrorText : String :=
  "Message Id of 0 is reserved for system messages and cannot be used by clients"

/-- Modelled from the spec: `ButtplugMessageValidator::is_not_system_id`
(the trait with its default methods is not under src/): id 0 is reserved for
server-initiated messages, so a client message with id 0 is rejected with
`InvalidMessageContents`. -/
def is_not_system_id (id : Nat) : Except ButtplugMessageError Unit :=
  if id = 0 then .error (.InvalidMessageContents systemIdErrorText) else .ok ()

/-- Modelled from the spec: `ButtplugMessageValidator::is_in_command_range`
(the trait is not under src/): "each subcommand's scalar ∈ [0.0, 1.0],
otherwise `InvalidMessageContents`" with the caller-supplied message. -/
def is_in_command_range (value : Rat) (error_msg : String) :
    Except ButtplugMessageError Unit :=
  if 0 ≤ value ∧ value ≤ 1 then .ok () else
    .error (.InvalidMessageContents error_msg)

/-- Decimal rendering of an embedded `f64` scalar, used where the Rust code
formats the value into an error string. -/
def ratText (value : Rat) : String :=
  toString value.num ++ (if value.den = 1 then "" else "/" ++ toString value.den)

/-- The error text `ScalarCmd::is_valid` (scalar_cmd.rs) formats for an
out-of-range subcommand: it names the subcommand's scalar value and index. -/
def scalarLevelErrorText (level : ScalarSubcommand) : String :=
  "Level " ++ ratText level.scalar ++ " for ScalarCmd index " ++
    toString level.index ++
    " is invalid. Level should be a value between 0.0 and 1.0"

/-- The subcommand loop of `ScalarCmd::is_valid` (scalar_cmd.rs): check each
subcommand's scalar in order, returning the first failure. -/
def checkScalarSubcommands :
    List ScalarSubcommand → Except ButtplugMessageError Unit
  | [] => .ok ()
  | level :: rest =>
    match is_in_command_range level.scalar (scalarLevelErrorText level) with
    | .error e => .error e
    | .ok _ => checkScalarSubcommands rest

/-- `ScalarCmd::is_valid` of scalar_cmd.rs: the reserved-id check, then the
per-subcommand range check. -/
def ScalarCmd.is_valid (m : ScalarCmd) : Except ButtplugMessageError Unit :=
  match is_not_system_id m.id with
  | .error e => .error e
  | .ok _ => checkScalarSubcommands m.scalars

/-- `RawReadCmd::is_valid` of raw_read_cmd.rs: only the reserved-id check
(the source's TODO notes that `expected_length` is not validated). -/
def RawReadCmd.is_valid (m : RawReadCmd) : Except ButtplugMessageError Unit :=
  is_not_system_id m.id

/-- `From<VibrateCmd> for ScalarCmd` of scalar_cmd.rs: map each speed
subcommand to a scalar subcommand with actuator type `Vibrate`, keeping id and
device index. -/
def ScalarCmd.fromVibrateCmd (vibrate_cmd : VibrateCmd) : ScalarCmd :=
  { id := vibrate_cmd.id,
    device_index := vibrate_cmd.device_index,
    scalars := vibrate_cmd.speeds.map
      (fun x => ScalarSubcommand.new x.index x.speed ActuatorType.Vibrate) }

/-- A registered server device as the manager's routing sees it: a display
name, the supported-message attribute summary, and the handler future
`parse_message` returns. Modelled from the spec ("pairs a `Hardware` instance
with a `ProtocolHandler`; exposes `parse_message`"): server/device's
`ServerDevice` module is not under src/, so its handler is an abstract
function field. -/
structure ServerDevice where
  name : String
  message_attributes : List String
  parse_message :
    ButtplugDeviceCommandMessageUnion → Except ButtplugError ButtplugServerMessage

/-- The manager's live device map (`DashMap<u32, Arc<ServerDevice>>` in
server_device_manager.rs), embedded as an association list from device index
to device. -/
abbrev DeviceMap : Type := List (Nat × ServerDevice)

/-- `self.devices.get(&index)`: the device registered at an index, if any. -/
def DeviceMap.get? (devices : DeviceMap) (index : Nat) : Option ServerDevice :=
  (devices.find? (fun entry => entry.fst == index)).map (fun entry => entry.snd)

/-- The resolution of one `ButtplugServerResultFuture` produced by the
manager's routing: which devices had `parse_message` invoked on them (index
and the command passed), and the response the future resolves to. -/
structure ServerReply where
  invocations : List (Nat × ButtplugDeviceCommandMessageUnion)
  response : Except ButtplugError ButtplugServerMessage

namespace ServerDeviceManager

/-- `ServerDeviceManager::start_scanning` of server_device_manager.rs: sends a
scan command over the manager channel and acknowledges with `Ok::default()`. -/
def start_scanning : ServerReply :=
  { invocations := [], response := .ok (.ok Ok.default) }

/-- `ServerDeviceManager::stop_scanning` of server_device_manager.rs:
acknowledges with `Ok::default()`. -/
def stop_scanning : ServerReply :=
  { invocations := [], response := .ok (.ok Ok.default) }

/-- `ServerDeviceManager::stop_all_devices` of server_device_manager.rs:
invokes `parse_message(StopDeviceCmd::new(1))` on every live device, awaits
them all, and acknowledges with `Ok::default()`. -/
def stop_all_devices (devices : DeviceMap) : ServerReply :=
  { invocations :=
      devices.map
        (fun entry =>
          (entry.fst,
           ButtplugDeviceCommandMessageUnion.stopDeviceCmd (StopDeviceCmd.new 1))),
    response := .ok (.ok Ok.default) }

/-- `ServerDeviceManager::parse_device_message` of server_device_manager.rs:
look the device up by the command's device index; invoke its `parse_message`
when present, otherwise resolve to `DeviceNotAvailable` with that index. -/
def parse_device_message (devices : DeviceMap)
    (device_msg : ButtplugDeviceCommandMessageUnion) : ServerReply :=
  match DeviceMap.get? devices device_msg.device_index with
  | some device =>
    { invocations := [(device_msg.device_index, device_msg)],
      response := device.parse_message device_msg }
  | none =>
    { invocations := [],
      response := .error (.Device (.DeviceNotAvailable device_msg.device_index)) }

/-- `ServerDeviceManager::parse_device_manager_message` of
server_device_manager.rs: `RequestDeviceList` is answered with a `DeviceList`
built from the live map and re-stamped with the request's id; the other three
manager messages are delegated. -/
def parse_device_manager_message (devices : DeviceMap)
    (manager_msg : ButtplugDeviceManagerMessageUnion) : ServerReply :=
  match manager_msg with
  | .requestDeviceList msg =>
    let infos := devices.map
      (fun entry =>
        DeviceMessageInfo.new entry.fst entry.snd.name
          entry.snd.message_attributes)
    { invocations := [],
      response := .ok (.deviceList ((DeviceList.new infos).set_id msg.id)) }
  | .stopAllDevices _ => stop_all_devices devices
  | .startScanning _ => start_scanning
  | .stopScanning _ => stop_scanning

/-- `ServerDeviceManager::parse_message` of server_device_manager.rs: try the
device-command union first, then the device-manager union, otherwise resolve
to an `UnexpectedMessageType` message error. -/
def parse_message (devices : DeviceMap) (msg : ButtplugClientMessage) :
    ServerReply :=
  match ButtplugDeviceCommandMessageUnion.tryFrom msg with
  | some device_msg => parse_device_message devices device_msg
  | none =>
    match ButtplugDeviceManagerMessageUnion.tryFrom msg with
    | some manager_msg => parse_device_manager_message devices manager_msg
    | none =>
      { invocations := [],
        response := .error (.Message (.UnexpectedMessageType msg.debugName)) }

end ServerDeviceManager

/-- Modelled from the spec: "`attributes_identifier` is either a default
marker or an identifier string disambiguating sub-models" (the configuration
manager module is not under src/). -/
inductive ProtocolAttributesIdentifier where
  | Default
  | Identifier (value : String)
  deriving DecidableEq

/-- The Rust derived `Debug` rendering of `ProtocolAttributesIdentifier`, as
`form_device_identifier` interpolates it with `{:?}`. -/
def ProtocolAttributesIdentifier.debugFormat :
    ProtocolAttributesIdentifier → String
  | .Default => "Default"
  | .Identifier value => "Identifier(\"" ++ value ++ "\")"

/-- `form_device_identifier` of device/mod.rs:
`format!("{}|{:?}|{}", protocol_identifier, protocol_attributes_identifier,
device_address)`. -/
def form_device_identifier (protocol_identifier : String)
    (protocol_attributes_identifier : ProtocolAttributesIdentifier)
    (device_address : String) : String :=
  protocol_identifier ++ "|" ++ protocol_attributes_identifier.debugFormat ++
    "|" ++ device_address

/-- The hardware handle a `ButtplugDevice` owns (`DeviceImpl` of
device/mod.rs): name, address and advertised endpoints (the transport-internal
state is irrelevant to the claims). -/
structure DeviceImpl where
  name : String
  address : String
  endpoints : List Endpoint

/-- The `ButtplugProtocol` trait object a `ButtplugDevice` owns, as the
capabilities device/mod.rs calls on it: its name, its two identifier parts,
and `supports_message`. The protocol implementations are not under src/, so
`supports_message` is an abstract function field. -/
structure ButtplugProtocol where
  name : String
  protocol_identifier : String
  protocol_attributes_identifier : ProtocolAttributesIdentifier
  supports_message :
    ButtplugDeviceCommandMessageUnion → Except ButtplugError Unit

/-- The `ButtplugDevice` struct of device/mod.rs. -/
structure ButtplugDevice where
  protocol : ButtplugProtocol
  device : DeviceImpl
  display_name : Option String
  device_identifier : String

/-- `ButtplugDevice::new` of device/mod.rs: the stored identifier string is
formed from the protocol identifier, the protocol attributes identifier and
the hardware address. -/
def ButtplugDevice.new (protocol : ButtplugProtocol) (device : DeviceImpl) :
    ButtplugDevice :=
  { device_identifier :=
      form_device_identifier protocol.protocol_identifier
        protocol.protocol_attributes_identifier device.address,
    protocol, device, display_name := none }

/-- `ButtplugDevice::set_display_name` of device/mod.rs. -/
def ButtplugDevice.set_display_name (d : ButtplugDevice) (name : String) :
    ButtplugDevice :=
  { d with display_name := some name }

/-- `impl PartialEq for ButtplugDevice` of device/mod.rs: equality compares
the stored device identifier strings only. -/
def ButtplugDevice.beq (a b : ButtplugDevice) : Bool :=
  a.device_identifier == b.device_identifier

/-- `impl Hash for ButtplugDevice` of device/mod.rs: hashing feeds only the
device identifier string to the hasher, here an arbitrary string hasher. -/
def ButtplugDevice.hashWith (h : String → Nat) (d : ButtplugDevice) : Nat :=
  h d.device_identifier

/-- The probe message `ButtplugDevice::name` uses (device/mod.rs): an
arbitrary raw command, `RawSubscribeCmd::new(1, Endpoint::Tx)`. -/
def rawProbeMessage : ButtplugDeviceCommandMessageUnion :=
  .rawSubscribeCmd (RawSubscribeCmd.new 1 Endpoint.Tx)

/-- `ButtplugDevice::name` of device/mod.rs: the protocol's name, suffixed
with " (Raw Messages Allowed)" exactly when the protocol accepts the raw
probe message. -/
def ButtplugDevice.name (d : ButtplugDevice) : String :=
  match d.protocol.supports_message rawProbeMessage with
  | .ok _ => d.protocol.name ++ " (Raw Messages Allowed)"
  | .error _ => d.protocol.name

/-- The outcome of running Rust code that may panic. -/
inductive PanicOr (α : Type) where
  | panic (message : String)
  | ok (value : α)
  deriving DecidableEq

/-- Rust `Vec` indexing (`msg_vec[0]`): out of bounds panics. -/
def vecIndex {α : Type} (xs : List α) (i : Nat) : PanicOr α :=
  match xs.get? i with
  | some v => .ok v
  | none => .panic "index out of bounds"

/-- Modelled from the spec: `serde_json::from_str::<Vec<ButtplugMessageUnion>>`
on the wire format "JSON array of messages" (serde_json is an external
library). Only the behaviour the claims exercise is modelled: the input
`"[]"` deserializes to the empty vector; every other input is mapped to a
parse error (which only makes the totality claim easier to satisfy, so the
failing input found below does not depend on the unmodelled cases). -/
def from_str_message_vec (msg_str : String) :
    Except String (List ButtplugMessageUnion) :=
  if msg_str = "[]" then .ok [] else .error "unmodelled JSON input"

/-- The body of `ButtplugMessageUnion::try_deserialize` (core/messages/mod.rs)
after serde parsing: `.and_then(|msg_vec| Ok(msg_vec[0].clone()))` indexes the
vector at 0 unconditionally, and `.map_err(...)` wraps a parse error as a
`ButtplugMessageError`. -/
def ButtplugMessageUnion.try_deserialize_from
    (parsed : Except String (List ButtplugMessageUnion)) :
    PanicOr (Except ButtplugError ButtplugMessageUnion) :=
  match parsed with
  | .error e => .ok (.error (.Message (.MessageSerializationError e)))
  | .ok msg_vec =>
    match vecIndex msg_vec 0 with
    | .panic m => .panic m
    | .ok m => .ok (.ok m)

/-- `ButtplugMessageUnion::try_deserialize` of core/messages/mod.rs. -/
def ButtplugMessageUnion.try_deserialize (msg_str : String) :
    PanicOr (Except ButtplugError ButtplugMessageUnion) :=
  ButtplugMessageUnion.try_deserialize_from (from_str_message_vec msg_str)

/-- Extraction of a `LovenseCmd` from the version-1 wire union: witnesses
that `LovenseCmd` is one of its variants. -/
def lovenseFromVersion1 : ButtplugMessageUnionVersion1 → Option LovenseCmd
  | .lovenseCmd m => some m
  | _ => none

/-- Whether a routing outcome is the `DeviceNotSupportedMessageType` device
error. -/
def isDeviceNotSupportedReply :
    Except ButtplugError ButtplugServerMessage → Bool
  | .error (.Device (.DeviceNotSupportedMessageType _)) => true
  | _ => false

/-- Concrete sample: a V1 Lovense vendor command. -/
def sampleLovenseCmd : LovenseCmd :=
  { id := 2, device_index := 0, command := "Vibrate:10;" }

/-- Concrete sample: a two-motor vibrate command at half speed. -/
def sampleVibrateCmd : VibrateCmd :=
  { id := 2, device_index := 1,
    speeds := [{ index := 0, speed := mkRat 1 2 },
               { index := 1, speed := mkRat 1 2 }] }

/-- Concrete sample: a valid `ScalarCmd`. -/
def validScalarCmd : ScalarCmd :=
  { id := 3, device_index := 1,
    scalars := [{ index := 0, scalar := mkRat 1 2, actuator_type := .Vibrate }] }

/-- Concrete sample: a `ScalarCmd` with the reserved id 0 and an out-of-range
scalar at its only subcommand. -/
def outOfRangeZeroIdScalarCmd : ScalarCmd :=
  { id := 0, device_index := 0,
    scalars := [{ index := 0, scalar := 2, actuator_type := .Vibrate }] }

/-- Concrete sample: a protocol whose `supports_message` accepts raw
commands. -/
def rawAllowedProtocol : ButtplugProtocol :=
  { name := "TestProtocol", protocol_identifier := "testprotocol",
    protocol_attributes_identifier := .Default,
    supports_message := fun _ => .ok () }

/-- Concrete sample: a hardware handle. -/
def sampleDeviceImpl : DeviceImpl :=
  { name := "Test Device", address := "AA:BB", endpoints := [.Tx, .Rx] }

/-- Concrete sample: a Lovense sub-model protocol that refuses raw
commands. -/
def protocolA : ButtplugProtocol :=
  { name := "Lovense", protocol_identifier := "lovense",
    protocol_attributes_identifier := .Identifier "A",
    supports_message := fun _ =>
      .error (.Device (.DeviceNotSupportedMessageType "RawSubscribeCmd")) }

/-- Concrete sample: a protocol with the same identifier parts as
`protocolA` but different name and different raw-message behaviour. -/
def protocolB : ButtplugProtocol :=
  { name := "Lovense Variant", protocol_identifier := "lovense",
    protocol_attributes_identifier := .Identifier "A",
    supports_message := fun _ => .ok () }

/-- Concrete sample: a hardware handle at address 00:11. -/
def implA : DeviceImpl :=
  { name := "LVS-A", address := "00:11", endpoints := [.Tx] }

/-! ## Helper lemmas -/

/-- The subcommand loop succeeds exactly when every scalar is in [0, 1]. -/
theorem checkScalarSubcommands_ok_iff (xs : List ScalarSubcommand) :
    checkScalarSubcommands xs = .ok () ↔
      ∀ level ∈ xs, 0 ≤ level.scalar ∧ level.scalar ≤ 1 := by
  induction xs with
  | nil => simp [checkScalarSubcommands]
  | cons level rest ih =>
    by_cases h : 0 ≤ level.scalar ∧ level.scalar ≤ 1
    · simp [checkScalarSubcommands, is_in_command_range, h, ih]
    · simp [checkScalarSubcommands, is_in_command_range, h]

/-- The subcommand loop reports the first out-of-range subcommand. -/
theorem checkScalarSubcommands_first_error (xs : List ScalarSubcommand)
    (level : ScalarSubcommand)
    (hfind :
      xs.find? (fun l => decide (¬(0 ≤ l.scalar ∧ l.scalar ≤ 1))) = some level) :
    checkScalarSubcommands xs =
      .error (.InvalidMessageContents (scalarLevelErrorText level)) := by
  induction xs with
  | nil => simp [List.find?] at hfind
  | cons a rest ih =>
    by_cases h : 0 ≤ a.scalar ∧ a.scalar ≤ 1
    · rw [List.find?_cons_of_neg _ (by simp [h])] at hfind
      simpa [checkScalarSubcommands, is_in_command_range, h] using ih hfind
    · rw [List.find?_cons_of_pos _ (by simp [h])] at hfind
      cases hfind
      simp [checkScalarSubcommands, is_in_command_range, h]

/-! ## The claims -/

/-- Claim C1 (counterexample): within `ServerDeviceManager::parse_message`,
the `Ok` acknowledging a `StopAllDevices` with id 4 carries the fixed default
id 1, not 4; indeed the whole reply does not depend on the triggering id at
all (ids 4 and 5 give identical replies). -/
theorem stopAllDevices_ack_id_counterexample :
    (ServerDeviceManager.parse_message []
        (.stopAllDevices { id := 4 })).response = .ok (.ok { id := 1 }) ∧
    ({ id := 1 } : Ok) ≠ ({ id := 4 } : Ok) ∧
    ServerDeviceManager.parse_message [] (.stopAllDevices { id := 4 }) =
      ServerDeviceManager.parse_message [] (.stopAllDevices { id := 5 }) :=
  ⟨rfl, by decide, rfl⟩

/-- Claim C1 (amended): inside `ServerDeviceManager::parse_message`, the
`DeviceList` answering `RequestDeviceList` carries the id of the triggering
message, while the `Ok` acknowledging `StopAllDevices`, `StartScanning` and
`StopScanning` is `Ok::default()` whose id is independent of the trigger (the
server layer above this module re-stamps response ids). -/
theorem manager_message_id_handling (devices : DeviceMap) (k : Nat) :
    responseIdOf (ServerDeviceManager.parse_message devices
        (.requestDeviceList { id := k })).response = some k ∧
    (ServerDeviceManager.parse_message devices
        (.stopAllDevices { id := k })).response = .ok (.ok Ok.default) ∧
    (ServerDeviceManager.parse_message devices
        (.startScanning { id := k })).response = .ok (.ok Ok.default) ∧
    (ServerDeviceManager.parse_message devices
        (.stopScanning { id := k })).response = .ok (.ok Ok.default) :=
  ⟨rfl, rfl, rfl, rfl⟩

/-- Claim C1 (witness): the `DeviceList` id equation evaluated on the empty
device map and id 9. -/
theorem manager_message_id_witness :
    responseIdOf (ServerDeviceManager.parse_message []
        (.requestDeviceList { id := 9 })).response = some 9 :=
  (manager_message_id_handling [] 9).1

/-- Claim C2 (counterexample to the claim as stated): on a `ScalarCmd` with
id 0 and an out-of-range scalar, the returned `InvalidMessageContents` error
carries the reserved-id text, which does not name the offending subcommand's
index and scalar value. -/
theorem scalarCmd_error_naming_counterexample :
    (¬(0 ≤ (2 : Rat) ∧ (2 : Rat) ≤ 1)) ∧
    ScalarCmd.is_valid outOfRangeZeroIdScalarCmd =
      .error (.InvalidMessageContents systemIdErrorText) ∧
    systemIdErrorText ≠
      scalarLevelErrorText
        { index := 0, scalar := 2, actuator_type := .Vibrate } :=
  ⟨by decide, rfl, by decide⟩

/-- Claim C2 (amended): `ScalarCmd::is_valid` succeeds exactly when the id is
non-zero and every subcommand scalar is within [0, 1]; when the id is
non-zero and some scalar is out of range, the error names the first offending
subcommand's scalar value and index; a non-zero id with no subcommands is
valid. (When the id is 0, the reserved-id error is returned instead.) -/
theorem scalarCmd_is_valid_spec (m : ScalarCmd) :
    (ScalarCmd.is_valid m = .ok () ↔
      (m.id ≠ 0 ∧ ∀ level ∈ m.scalars, 0 ≤ level.scalar ∧ level.scalar ≤ 1)) ∧
    (∀ level, m.id ≠ 0 →
      m.scalars.find? (fun l => decide (¬(0 ≤ l.scalar ∧ l.scalar ≤ 1))) =
        some level →
      ScalarCmd.is_valid m =
        .error (.InvalidMessageContents (scalarLevelErrorText level))) ∧
    (m.id ≠ 0 → m.scalars = [] → ScalarCmd.is_valid m = .ok ()) := by
  refine ⟨?_, ?_, ?_⟩
  · by_cases h : m.id = 0
    · simp [ScalarCmd.is_valid, is_not_system_id, h]
    · simp [ScalarCmd.is_valid, is_not_system_id, h,
            checkScalarSubcommands_ok_iff]
  · intro level hid hfind
    simp [ScalarCmd.is_valid, is_not_system_id, hid]
    exact checkScalarSubcommands_first_error m.scalars level hfind
  · intro hid hempty
    simp [ScalarCmd.is_valid, is_not_system_id, hid, hempty,
          checkScalarSubcommands]

/-- Claim C2 (witness): a `ScalarCmd` with id 3 and one in-range subcommand
validates. -/
theorem scalarCmd_is_valid_witness :
    ScalarCmd.is_valid validScalarCmd = .ok () :=
  (scalarCmd_is_valid_spec validScalarCmd).1.mpr (by decide)

/-- Claim C3: `ScalarCmd::from(VibrateCmd)` keeps the id and device index,
and its scalars list is the speeds list mapped in order to subcommands that
keep each index and speed and use actuator type `Vibrate`. -/
theorem vibrateCmd_to_scalarCmd_conversion (v : VibrateCmd) :
    (ScalarCmd.fromVibrateCmd v).id = v.id ∧
    (ScalarCmd.fromVibrateCmd v).device_index = v.device_index ∧
    (ScalarCmd.fromVibrateCmd v).scalars.length = v.speeds.length ∧
    ∀ i : Nat,
      (ScalarCmd.fromVibrateCmd v).scalars.get? i =
        (v.speeds.get? i).map
          (fun x => { index := x.index, scalar := x.speed,
                      actuator_type := ActuatorType.Vibrate }) := by
  refine ⟨rfl, rfl, by simp [ScalarCmd.fromVibrateCmd], fun i => ?_⟩
  simp [ScalarCmd.fromVibrateCmd, ScalarSubcommand.new]

/-- Claim C3 (witness): the conversion evaluated on a concrete two-motor
command at subcommand 0. -/
theorem vibrateCmd_to_scalarCmd_witness :
    (ScalarCmd.fromVibrateCmd sampleVibrateCmd).scalars.get? 0 =
      some { index := 0, scalar := mkRat 1 2,
             actuator_type := ActuatorType.Vibrate } := by
  rw [(vibrateCmd_to_scalarCmd_conversion sampleVibrateCmd).2.2.2 0]
  rfl

/-- Claim C4: `ButtplugDevice::name` returns the protocol name suffixed with
" (Raw Messages Allowed)" exactly when the protocol accepts the
`RawSubscribeCmd` probe, and the bare protocol name otherwise. -/
theorem buttplugDevice_name_raw_gate (d : ButtplugDevice) :
    (ButtplugDevice.name d =
        d.protocol.name ++ " (Raw Messages Allowed)" ↔
      (d.protocol.supports_message rawProbeMessage).isOk = true) ∧
    ((d.protocol.supports_message rawProbeMessage).isOk = false →
      ButtplugDevice.name d = d.protocol.name) := by
  have hlen : (" (Raw Messages Allowed)" : String).length = 23 := rfl
  cases h : d.protocol.supports_message rawProbeMessage with
  | ok u =>
    have hname :
        ButtplugDevice.name d = d.protocol.name ++ " (Raw Messages Allowed)" := by
      simp [ButtplugDevice.name, h]
    refine ⟨⟨fun _ => rfl, fun _ => hname⟩, fun hfalse => ?_⟩
    simp [Except.isOk, Except.toBool] at hfalse
  | error e =>
    have hname : ButtplugDevice.name d = d.protocol.name := by
      simp [ButtplugDevice.name, h]
    refine ⟨⟨fun heq => ?_, fun htrue => ?_⟩, fun _ => hname⟩
    · exfalso
      have hcontr := congrArg String.length (hname.symm.trans heq)
      rw [String.length_append, hlen] at hcontr
      omega
    · simp [Except.isOk, Except.toBool] at htrue

/-- Claim C4 (witness): a device over a protocol that accepts raw messages
gets the suffixed name. -/
theorem buttplugDevice_name_raw_gate_witness :
    ButtplugDevice.name (ButtplugDevice.new rawAllowedProtocol sampleDeviceImpl) =
      "TestProtocol (Raw Messages Allowed)" := by
  have h := (buttplugDevice_name_raw_gate
    (ButtplugDevice.new rawAllowedProtocol sampleDeviceImpl)).1.mpr rfl
  exact h.trans rfl

/-- Claim C5: `RawReadCmd::is_valid` accepts every message with a non-zero id
(whatever `expected_length` and `timeout` hold, zero included) and rejects
exactly the messages with id 0. -/
theorem rawReadCmd_is_valid_spec (m : RawReadCmd) :
    (m.id ≠ 0 → RawReadCmd.is_valid m = .ok ()) ∧
    (m.id = 0 →
      RawReadCmd.is_valid m =
        .error (.InvalidMessageContents systemIdErrorText)) := by
  constructor
  · intro h
    simp [RawReadCmd.is_valid, is_not_system_id, h]
  · intro h
    simp [RawReadCmd.is_valid, is_not_system_id, h]

/-- Claim C5 (witness): a `RawReadCmd` with expected length 0 and timeout 0
validates (its constructor id is 1). -/
theorem rawReadCmd_is_valid_witness :
    RawReadCmd.is_valid (RawReadCmd.new 0 Endpoint.Tx 0 0) = .ok () :=
  (rawReadCmd_is_valid_spec _).1 (by decide)

/-- Claim C6: when a device command's index is not a key of the live map,
`ServerDeviceManager::parse_message` resolves to `DeviceNotAvailable` with
that index and invokes no device's `parse_message`. -/
theorem parse_message_device_not_available (devices : DeviceMap)
    (msg : ButtplugClientMessage)
    (device_msg : ButtplugDeviceCommandMessageUnion)
    (hconv : ButtplugDeviceCommandMessageUnion.tryFrom msg = some device_msg)
    (hmiss : DeviceMap.get? devices device_msg.device_index = none) :
    ServerDeviceManager.parse_message devices msg =
      { invocations := [],
        response :=
          .error (.Device (.DeviceNotAvailable device_msg.device_index)) } := by
  simp [ServerDeviceManager.parse_message, hconv,
        ServerDeviceManager.parse_device_message, hmiss]

/-- Claim C6 (witness): a `StopDeviceCmd` for index 7 against the empty
device map. -/
theorem parse_message_device_not_available_witness :
    ServerDeviceManager.parse_message []
        (.stopDeviceCmd (StopDeviceCmd.new 7)) =
      { invocations := [],
        response := .error (.Device (.DeviceNotAvailable 7)) } :=
  parse_message_device_not_available [] (.stopDeviceCmd (StopDeviceCmd.new 7))
    (.stopDeviceCmd (StopDeviceCmd.new 7)) rfl rfl

/-- Claim C7 (counterexample): a concrete `LovenseCmd` is answered by
`ServerDeviceManager::parse_message` with an `UnexpectedMessageType` message
error, not with a `DeviceNotSupportedMessageType` device error. -/
theorem lovenseCmd_error_kind_counterexample :
    (ServerDeviceManager.parse_message []
        (.lovenseCmd sampleLovenseCmd)).response =
      .error (.Message (.UnexpectedMessageType "LovenseCmd")) ∧
    isDeviceNotSupportedReply
      (ServerDeviceManager.parse_message []
        (.lovenseCmd sampleLovenseCmd)).response = false :=
  ⟨rfl, rfl⟩

/-- Claim C7 (amended): `LovenseCmd` is a variant of the version-1 wire union
but converts into neither the device-command union nor the device-manager
union, so `ServerDeviceManager::parse_message` answers every `LovenseCmd`
with an `UnexpectedMessageType` message error (and invokes no device). -/
theorem lovenseCmd_always_rejected (m : LovenseCmd) (devices : DeviceMap) :
    lovenseFromVersion1 (ButtplugMessageUnionVersion1.lovenseCmd m) = some m ∧
    ButtplugDeviceCommandMessageUnion.tryFrom (.lovenseCmd m) = none ∧
    ButtplugDeviceManagerMessageUnion.tryFrom (.lovenseCmd m) = none ∧
    ServerDeviceManager.parse_message devices (.lovenseCmd m) =
      { invocations := [],
        response := .error (.Message (.UnexpectedMessageType "LovenseCmd")) } :=
  ⟨rfl, rfl, rfl, rfl⟩

/-- Claim C7 (witness): the rejection evaluated on a concrete command over a
concrete device map. -/
theorem lovenseCmd_always_rejected_witness :
    ServerDeviceManager.parse_message [] (.lovenseCmd sampleLovenseCmd) =
      { invocations := [],
        response := .error (.Message (.UnexpectedMessageType "LovenseCmd")) } :=
  (lovenseCmd_always_rejected sampleLovenseCmd []).2.2.2

/-- Claim C8: `Endpoint` serialization produces the lowercase variant name
(`tx`, `rxaccel`, `generic0` among them), deserializing that string yields the
variant back for all 45 variants, and deserialization succeeds only on such
lowercase names. -/
theorem endpoint_serialization_spec :
    (Endpoint.toStr .Tx = "tx" ∧ Endpoint.toStr .RxAccel = "rxaccel" ∧
      Endpoint.toStr .Generic0 = "generic0") ∧
    (∀ e : Endpoint, Endpoint.fromStr (Endpoint.toStr e) = some e) ∧
    (∀ (s : String) (e : Endpoint),
      Endpoint.fromStr s = some e → s = Endpoint.toStr e) := by
  refine ⟨⟨rfl, rfl, rfl⟩, fun e => ?_, fun s e h => ?_⟩
  · cases e <;> rfl
  · have h2 : endpointVariants.find?
        (fun x => decide (Endpoint.toStr x = s)) = some e := h
    have h3 := List.find?_some h2
    simp only [decide_eq_true_eq] at h3
    exact h3.symm

/-- Claim C8 (witness): deserializing the last variant's lowercase name. -/
theorem endpoint_roundtrip_witness :
    Endpoint.fromStr "generic31" = some Endpoint.Generic31 :=
  endpoint_serialization_spec.2.1 Endpoint.Generic31

/-- Claim C9: `ButtplugDevice` equality compares exactly the identifier
strings formed from protocol identifier, protocol attributes identifier and
hardware address — whatever the display name and the rest of the protocol
state — and equal devices hash alike under any string hasher. -/
theorem buttplugDevice_eq_by_identifier (p1 p2 : ButtplugProtocol)
    (d1 d2 : DeviceImpl) (n : String) :
    (ButtplugDevice.beq ((ButtplugDevice.new p1 d1).set_display_name n)
        (ButtplugDevice.new p2 d2) = true ↔
      form_device_identifier p1.protocol_identifier
          p1.protocol_attributes_identifier d1.address =
        form_device_identifier p2.protocol_identifier
          p2.protocol_attributes_identifier d2.address) ∧
    (ButtplugDevice.beq ((ButtplugDevice.new p1 d1).set_display_name n)
        (ButtplugDevice.new p2 d2) = true →
      ∀ h : String → Nat,
        ButtplugDevice.hashWith h
            ((ButtplugDevice.new p1 d1).set_display_name n) =
          ButtplugDevice.hashWith h (ButtplugDevice.new p2 d2)) := by
  constructor
  · simp [ButtplugDevice.beq, ButtplugDevice.new,
          ButtplugDevice.set_display_name]
  · intro hbeq h
    simp [ButtplugDevice.beq, ButtplugDevice.new,
          ButtplugDevice.set_display_name] at hbeq
    simp [ButtplugDevice.hashWith, ButtplugDevice.new,
          ButtplugDevice.set_display_name, hbeq]

/-- Claim C9 (witness): two devices differing in display name and protocol
behaviour but with equal identifier triples compare equal. -/
theorem buttplugDevice_eq_witness :
    ButtplugDevice.beq
        ((ButtplugDevice.new protocolA implA).set_display_name "My Toy")
        (ButtplugDevice.new protocolB implA) = true :=
  (buttplugDevice_eq_by_identifier protocolA protocolB implA implA
    "My Toy").1.mpr rfl

/-- Claim C10: `ButtplugMessageUnion::try_deserialize` panics on the input
`"[]"`: serde deserializes it to an empty vector and the unconditional
`msg_vec[0]` indexes out of bounds, so the function is not total. -/
theorem try_deserialize_panics_on_empty_array :
    ButtplugMessageUnion.try_deserialize "[]" = .panic "index out of bounds" :=
  rfl

end Buttplug
